import Mathlib

/-!
Shallow embedding of the Presense recording-session orchestrator
(the `Recorder` React component, its `Dashboard` consumer and the
constants module).  JavaScript objects with possibly-absent fields are
modelled with `Option`-typed fields; JS numbers that are only ever
integers are modelled as `Int` (or `Nat` for values that start at 0 and
only increment); classification probabilities are modelled as exact
rationals, so `Math.round` becomes Mathlib's `round` (both round half
towards positive infinity on the values in question).
-/

namespace Presense

/-- One track of a media stream (audio or video); identified by an id. -/
structure Track where
  id : Nat
deriving DecidableEq

/-- A `MediaStream`: the list of its tracks. -/
structure Stream where
  tracks : List Track
deriving DecidableEq

/-- One encoded data segment handed to `recorder.ondataavailable`
(`event.data`); only its size matters to the orchestrator. -/
structure Chunk where
  size : Nat
deriving DecidableEq

/-- A `Blob` assembled from recorded chunks, tagged with a container
type (`new Blob(chunksRef.current, { type: 'video/webm' })`). -/
structure Blob where
  chunks : List Chunk
  type : String
deriving DecidableEq

/-- `MediaRecorder.state`. -/
inductive MRState
  | inactive
  | recording
  | paused
deriving DecidableEq

/-- The view string of the `Recorder` component:
`'recorder' | 'review' | 'loading' | 'dashboard'`. -/
inductive View
  | recorder
  | review
  | loading
  | dashboard
deriving DecidableEq

/-- The `speechComposition` sub-object of an analysis payload, as read
by the `Dashboard` component. -/
structure SpeechComposition where
  persuasive : Int
  informative : Int
  demonstrative : Int
deriving DecidableEq

/-- An analysis payload object.  Both the remote payload returned by
`analyzeVideo` and the locally held `analysisData` state are JS objects
whose fields may be absent, hence every field is `Option`-typed.  The
field names are the ones the `Dashboard` component reads. -/
structure AnalysisData where
  confidenceScore : Option Int := none
  eyeContactScore : Option Int := none
  clarityScore : Option Int := none
  engagementScore : Option Int := none
  speechComposition : Option SpeechComposition := none
  speechLength : Option String := none
  wordsSpoken : Option Int := none
  speakingRate : Option Int := none
  fillerWordCount : Option Int := none
  pauses : Option Int := none
  overallPercentage : Option Int := none
  strengths : Option String := none
  weaknesses : Option String := none
  nextSteps : Option (List String) := none
deriving DecidableEq

/-- The empty JS object `{}` used in `{ ...(prev || {}), ... }`. -/
def emptyAnalysisData : AnalysisData := {}

/-- One entry of the prediction list returned by
`modelRef.current.predict(videoRef.current)`. -/
structure Prediction where
  className : String
  probability : ℚ
deriving DecidableEq

/-- Outcome of one sampler tick's classification call:
either `model.predict` throws (caught by the surrounding `try`), or it
resolves with a predictions value that may be null/undefined (`none`)
or an actual list. -/
inductive TickOutcome
  | failure
  | result (predictions : Option (List Prediction))
deriving DecidableEq

/-- Observable side effects on external resources, used to model
`track.stop()`, `clearInterval(...)` and `mediaRecorder.stop()`. -/
inductive Effect
  | stopTrack (t : Track)
  | clearTimer (id : Nat)
  | stopRecorder
deriving DecidableEq

/-- The state of the `Recorder` component: its `useRef` cells and its
`useState` cells. -/
structure RecorderState where
  -- refs
  videoPresent : Bool := true            -- videoRef.current is non-null
  preview : Option Stream := none        -- videoRef.current.srcObject
  stream : Option Stream := none         -- streamRef.current
  mediaRecorder : Option MRState := none -- mediaRecorderRef.current (its .state)
  timer : Option Nat := none             -- timerRef.current (interval id)
  chunks : List Chunk := []              -- chunksRef.current
  modelLoaded : Bool := false            -- modelRef.current is non-null
  eyeContactFrames : Int := 0            -- eyeContactFramesRef.current
  totalFrames : Int := 0                 -- totalFramesRef.current
  predictionInterval : Option Nat := none -- predictionIntervalRef.current
  -- state
  isRecording : Bool := false
  elapsed : Nat := 0
  error : Option String := none
  isInitializing : Bool := true
  recordingBlob : Option Blob := none
  analysisData : Option AnalysisData := none
  currentView : View := View.recorder
deriving DecidableEq

/-- The initial state of a freshly mounted `Recorder`. -/
def initialState : RecorderState := {}

/-- `cleanup` (source lines 443-460): stops all tracks of the current
stream and nulls the ref, clears the duration timer and nulls the ref,
and stops the media recorder if it is not already inactive
(`MediaRecorder.stop()` synchronously moves its state to inactive).
Returns the new state together with the external effects performed. -/
def cleanup (s : RecorderState) : RecorderState × List Effect :=
  let p1 : RecorderState × List Effect :=
    match s.stream with
    | some st => ({ s with stream := none }, st.tracks.map Effect.stopTrack)
    | none => (s, [])
  let p2 : RecorderState × List Effect :=
    match p1.1.timer with
    | some id => ({ p1.1 with timer := none }, [Effect.clearTimer id])
    | none => (p1.1, [])
  let p3 : RecorderState × List Effect :=
    match p2.1.mediaRecorder with
    | some mr =>
        if mr ≠ MRState.inactive then
          ({ p2.1 with mediaRecorder := some MRState.inactive }, [Effect.stopRecorder])
        else (p2.1, [])
    | none => (p2.1, [])
  (p3.1, p1.2 ++ p2.2 ++ p3.2)

/-- The continuation of `initializeMedia` (source lines 576-592) that
runs when the `getUserMedia` promise resolves: if the effect has been
cancelled (`isMounted` is false, i.e. the component unmounted or
transitioned away), every track of the resolved stream is stopped and
nothing is bound; otherwise the stream is stored in `streamRef`, bound
to the preview element when present, and initialization ends. -/
def initializeMediaResolved (isMounted : Bool) (mediaStream : Stream)
    (s : RecorderState) : RecorderState × List Effect :=
  if isMounted = false then
    (s, mediaStream.tracks.map Effect.stopTrack)
  else
    let s1 := { s with stream := some mediaStream }
    let s2 := if s1.videoPresent then { s1 with preview := some mediaStream } else s1
    ({ s2 with isInitializing := false }, [])

/-- `startEyeContactDetection` (source lines 495-541) up to installing
the interval: bails out when the model or the video element is missing,
otherwise resets both frame counters to 0 and installs the 300ms
prediction interval. -/
def startEyeContactDetection (s : RecorderState) : RecorderState :=
  if s.modelLoaded = false then s
  else if s.videoPresent = false then s
  else { s with eyeContactFrames := 0, totalFrames := 0, predictionInterval := some 0 }

/-- One iteration of the prediction interval callback (source lines
513-540): a thrown classification error is caught and the tick skipped;
a null or empty predictions list is skipped; otherwise `totalFrames` is
incremented and, when `predictions[0].probability >= 0.5`,
`eyeContactFrames` is incremented as well. -/
def tick (s : RecorderState) (o : TickOutcome) : RecorderState :=
  match o with
  | TickOutcome.failure => s
  | TickOutcome.result none => s
  | TickOutcome.result (some []) => s
  | TickOutcome.result (some (p :: _)) =>
      let s1 := { s with totalFrames := s.totalFrames + 1 }
      if (1 : ℚ)/2 ≤ p.probability then
        { s1 with eyeContactFrames := s1.eyeContactFrames + 1 }
      else s1

/-- `stopEyeContactDetection` (source lines 546-551). -/
def stopEyeContactDetection (s : RecorderState) : RecorderState × List Effect :=
  match s.predictionInterval with
  | some id => ({ s with predictionInterval := none }, [Effect.clearTimer id])
  | none => (s, [])

/-- `recorder.ondataavailable` (source lines 667-671): a data segment is
accumulated only when its size is positive. -/
def ondataavailable (chunks : List Chunk) (data : Chunk) : List Chunk :=
  if 0 < data.size then chunks ++ [data] else chunks

/-- `handleRecordingComplete` (source lines 622-639): with zero
accumulated chunks it returns immediately; otherwise it assembles the
blob, computes the eye contact score
(`totalFrames > 0 ? Math.round((eyeContactFrames / totalFrames) * 100) : 0`),
stores the score over the previous `analysisData` (or over `{}`), and
moves to the review view. -/
def handleRecordingComplete (s : RecorderState) : RecorderState :=
  if s.chunks = [] then s
  else
    let blob : Blob := { chunks := s.chunks, type := "video/webm" }
    let eyeContactScore : Int :=
      if 0 < s.totalFrames then
        round ((s.eyeContactFrames : ℚ) / (s.totalFrames : ℚ) * 100)
      else 0
    let prevObj := s.analysisData.getD emptyAnalysisData
    { s with recordingBlob := some blob,
             analysisData := some { prevObj with eyeContactScore := some eyeContactScore },
             currentView := View.review }

/-- `startRecording` (source lines 645-698), ignoring the mime-type
selection (the assembled blob is tagged `'video/webm'` unconditionally
in `handleRecordingComplete`): errors out without a stream, otherwise
creates the recorder, resets the chunk accumulator, starts eye contact
detection, starts recording and the 1-second duration timer. -/
def startRecording (s : RecorderState) : RecorderState :=
  match s.stream with
  | none => { s with error := some "No media stream available" }
  | some _ =>
      let s1 := { s with mediaRecorder := some MRState.recording, chunks := [] }
      let s2 := startEyeContactDetection s1
      { s2 with isRecording := true, elapsed := 0, timer := some 1 }

/-- `stopRecording` (source lines 704-717). -/
def stopRecording (s : RecorderState) : RecorderState × List Effect :=
  let p1 : RecorderState × List Effect :=
    match s.mediaRecorder with
    | some mr =>
        if mr ≠ MRState.inactive then
          ({ s with mediaRecorder := some MRState.inactive }, [Effect.stopRecorder])
        else (s, [])
    | none => (s, [])
  let s2 := { p1.1 with isRecording := false }
  let p3 := stopEyeContactDetection s2
  let p4 : RecorderState × List Effect :=
    match p3.1.timer with
    | some id => ({ p3.1 with timer := none }, [Effect.clearTimer id])
    | none => (p3.1, [])
  (p4.1, p1.2 ++ p3.2 ++ p4.2)

/-- Outcome of the awaited `analyzeVideo(recordingBlob)` call. -/
inductive SubmitOutcome
  | success (result : AnalysisData)
  | failure
deriving DecidableEq

/-- The merge performed on submission success (source line 761):
`setAnalysisData(prev => ({ ...result, eyeContactScore: prev?.eyeContactScore }))`.
The spread copies every field of the remote payload and then the
`eyeContactScore` key is overwritten with the previous local value
(`undefined` when `prev` is null). -/
def mergeAnalysis (result : AnalysisData) (prev : Option AnalysisData) : AnalysisData :=
  { result with eyeContactScore := prev.bind fun d => d.eyeContactScore }

/-- `handleAnalyzeSpeech` (source lines 752-771): moves to the loading
view, awaits the analysis call; on success stores the merged result and
shows the dashboard; on failure records the error message and returns
to the review view. -/
def handleAnalyzeSpeech (s : RecorderState) (o : SubmitOutcome) : RecorderState :=
  let s1 := { s with currentView := View.loading }
  match o with
  | SubmitOutcome.success result =>
      { s1 with analysisData := some (mergeAnalysis result s1.analysisData),
                currentView := View.dashboard }
  | SubmitOutcome.failure =>
      { s1 with error := some "Analysis failed. Please try again.",
                currentView := View.review }

/-- `handleReRecord` (source lines 777-781). -/
def handleReRecord (s : RecorderState) : RecorderState :=
  { s with currentView := View.recorder, recordingBlob := none, elapsed := 0 }

/-- `handleDashboardBack` (source lines 742-746). -/
def handleDashboardBack (s : RecorderState) : RecorderState :=
  { s with currentView := View.recorder, recordingBlob := none, analysisData := none }

/-- The values the `Dashboard` component reads and displays when it
renders (source lines 91-375). -/
structure DashboardView where
  confidenceScore : Option Int
  eyeContactScore : Option Int
  clarityScore : Option Int
  engagementScore : Option Int
  speechComposition : Option SpeechComposition
  speechLength : Option String
  wordsSpoken : Option Int
  speakingRate : Option Int
  fillerWordCount : Option Int
  pauses : Option Int
  overallPercentage : Option Int
  strengths : Option String
  weaknesses : Option String
  nextSteps : Option (List String)
  hasVideo : Bool
deriving DecidableEq

/-- The `Dashboard` component (source lines 80-376): with a null
`analysisData` prop it returns null before reading any field; otherwise
it renders a view of the payload's fields (and of whether a recording
blob is available for playback). -/
def Dashboard (recordingBlob : Option Blob) (analysisData : Option AnalysisData) :
    Option DashboardView :=
  match analysisData with
  | none => none
  | some data =>
      some { confidenceScore := data.confidenceScore
             eyeContactScore := data.eyeContactScore
             clarityScore := data.clarityScore
             engagementScore := data.engagementScore
             speechComposition := data.speechComposition
             speechLength := data.speechLength
             wordsSpoken := data.wordsSpoken
             speakingRate := data.speakingRate
             fillerWordCount := data.fillerWordCount
             pauses := data.pauses
             overallPercentage := data.overallPercentage
             strengths := data.strengths
             weaknesses := data.weaknesses
             nextSteps := data.nextSteps
             hasVideo := recordingBlob.isSome }

/-! ### Concrete states used by witnesses and counterexamples -/

/-- A state at recording stop: one accumulated chunk, 7 of 10 sampled
frames positive. -/
def sC1 : RecorderState :=
  { initialState with chunks := [{ size := 5 }], eyeContactFrames := 7,
                      totalFrames := 10, modelLoaded := true }

/-- A remote payload that (adversarially) also carries an
`eyeContactScore` field. -/
def remoteC2 : AnalysisData :=
  { confidenceScore := some 82, eyeContactScore := some 999,
    clarityScore := some 75, engagementScore := some 64,
    wordsSpoken := some 350, strengths := some "clear structure" }

/-- The preliminary local fragment holding only the eye contact score. -/
def prevC2 : AnalysisData := { eyeContactScore := some 70 }

/-- A review-view state holding the preliminary fragment and a bound
artifact, as produced by a completed recording. -/
def sC2 : RecorderState :=
  { initialState with analysisData := some prevC2, currentView := View.review,
                      recordingBlob := some { chunks := [{ size := 5 }], type := "video/webm" } }

/-- A recording-stop state for the C3 scenario. -/
def sC3base : RecorderState :=
  { initialState with chunks := [{ size := 5 }], eyeContactFrames := 7,
                      totalFrames := 10 }

/-- The review state the C3 scenario reaches after recording completes. -/
def sC3review : RecorderState := handleRecordingComplete sC3base

/-- The state after the submission from `sC3review` fails. -/
def sC3failed : RecorderState := handleAnalyzeSpeech sC3review SubmitOutcome.failure

/-- A state ready to start eye contact detection. -/
def sC4 : RecorderState := { initialState with modelLoaded := true }

/-- A mixed tick sequence: one positive, one failed, one negative. -/
def ticksC4 : List TickOutcome :=
  [TickOutcome.result (some [{ className := "Eye Contact", probability := 9/10 }]),
   TickOutcome.failure,
   TickOutcome.result (some [{ className := "Eye Contact", probability := 1/10 }])]

/-- A mid-recording state of the sampler. -/
def sC5 : RecorderState :=
  { initialState with modelLoaded := true, eyeContactFrames := 3, totalFrames := 5,
                      predictionInterval := some 0, isRecording := true }

/-- A prediction above the positive threshold. -/
def pC5 : Prediction := { className := "Eye Contact", probability := 7/10 }

/-- A review-view state with a bound artifact and a nonzero timer. -/
def sC6 : RecorderState :=
  { initialState with currentView := View.review, elapsed := 12,
                      recordingBlob := some { chunks := [{ size := 3 }], type := "video/webm" } }

/-- Recorder data events: an empty segment followed by two non-empty. -/
def evsC7 : List Chunk := [{ size := 0 }, { size := 4 }, { size := 2 }]

/-- The state whose chunk accumulator collected exactly `evsC7`. -/
def sC7 : RecorderState := { initialState with chunks := evsC7.foldl ondataavailable [] }

/-! ### Helper lemmas -/

/-- One tick preserves nonnegativity of `eyeContactFrames` and the
bound `eyeContactFrames ≤ totalFrames`. -/
theorem tick_preserves_invariant (s : RecorderState) (o : TickOutcome)
    (h0 : 0 ≤ s.eyeContactFrames) (h : s.eyeContactFrames ≤ s.totalFrames) :
    0 ≤ (tick s o).eyeContactFrames ∧
      (tick s o).eyeContactFrames ≤ (tick s o).totalFrames := by
  cases o with
  | failure => exact ⟨h0, h⟩
  | result ps =>
    cases ps with
    | none => exact ⟨h0, h⟩
    | some l =>
      cases l with
      | nil => exact ⟨h0, h⟩
      | cons p rest =>
        simp only [tick]
        split <;> constructor <;> simp <;> omega

/-- Folding any tick sequence preserves the accumulator invariant. -/
theorem tickLoop_invariant (os : List TickOutcome) (s : RecorderState)
    (h0 : 0 ≤ s.eyeContactFrames) (h : s.eyeContactFrames ≤ s.totalFrames) :
    0 ≤ (os.foldl tick s).eyeContactFrames ∧
      (os.foldl tick s).eyeContactFrames ≤ (os.foldl tick s).totalFrames := by
  induction os generalizing s with
  | nil => exact ⟨h0, h⟩
  | cons o os ih =>
      obtain ⟨a, b⟩ := tick_preserves_invariant s o h0 h
      simpa using ih (tick s o) a b

/-- Every chunk accumulated by folding `ondataavailable` over events,
starting from an accumulator of positive-size chunks, has positive size. -/
theorem ondataavailable_foldl_pos (evs : List Chunk) (acc : List Chunk)
    (hacc : ∀ c ∈ acc, 0 < c.size) :
    ∀ c ∈ evs.foldl ondataavailable acc, 0 < c.size := by
  induction evs generalizing acc with
  | nil => simpa using hacc
  | cons e es ih =>
      refine ih (ondataavailable acc e) ?_
      intro c hc
      unfold ondataavailable at hc
      split at hc
      · rcases List.mem_append.mp hc with hmem | hmem
        · exact hacc c hmem
        · simp only [List.mem_singleton] at hmem
          subst hmem
          assumption
      · exact hacc c hc

/-! ### Claims -/

/-- Claim C1: when recording stops and the completion handler finalizes
(at least one accumulated chunk), the eye contact score it stores in
`analysisData` equals `round (100 * eyeContactFrames / totalFrames)`
whenever `totalFrames > 0`, and equals `0` whenever `totalFrames = 0`. -/
theorem finalized_eye_contact_score (s : RecorderState) (h : s.chunks ≠ []) :
    (0 < s.totalFrames →
      ((handleRecordingComplete s).analysisData.bind fun d => d.eyeContactScore)
        = some (round ((100 * (s.eyeContactFrames : ℚ)) / (s.totalFrames : ℚ)))) ∧
    (s.totalFrames = 0 →
      ((handleRecordingComplete s).analysisData.bind fun d => d.eyeContactScore)
        = some 0) := by
  unfold handleRecordingComplete
  rw [if_neg h]
  constructor
  · intro ht
    simp only [Option.some_bind]
    rw [if_pos ht]
    congr 2
    ring
  · intro ht
    simp only [Option.some_bind]
    rw [if_neg (by omega)]

/-- Witness for C1: 7 positive frames of 10 total finalize to 70. -/
theorem finalized_eye_contact_score_witness :
    ((handleRecordingComplete sC1).analysisData.bind fun d => d.eyeContactScore)
        = some (round ((100 * (sC1.eyeContactFrames : ℚ)) / (sC1.totalFrames : ℚ))) ∧
    round ((100 * (sC1.eyeContactFrames : ℚ)) / (sC1.totalFrames : ℚ)) = 70 :=
  ⟨(finalized_eye_contact_score sC1 (by decide)).1 (by decide),
   by norm_num [sC1, initialState, round_eq]⟩

/-- Claim C2: on submission success the merged result keeps the locally
finalized eye contact score (even when the remote payload carries its
own `eyeContactScore` field) and takes every other field from the
remote payload. -/
theorem merge_preserves_local_score (s : RecorderState) (R prevD : AnalysisData)
    (L : Int) (hprev : s.analysisData = some prevD)
    (hL : prevD.eyeContactScore = some L) :
    ∃ m, (handleAnalyzeSpeech s (SubmitOutcome.success R)).analysisData = some m ∧
      m.eyeContactScore = some L ∧
      m.confidenceScore = R.confidenceScore ∧
      m.clarityScore = R.clarityScore ∧
      m.engagementScore = R.engagementScore ∧
      m.speechComposition = R.speechComposition ∧
      m.speechLength = R.speechLength ∧
      m.wordsSpoken = R.wordsSpoken ∧
      m.speakingRate = R.speakingRate ∧
      m.fillerWordCount = R.fillerWordCount ∧
      m.pauses = R.pauses ∧
      m.overallPercentage = R.overallPercentage ∧
      m.strengths = R.strengths ∧
      m.weaknesses = R.weaknesses ∧
      m.nextSteps = R.nextSteps := by
  refine ⟨mergeAnalysis R (some prevD), ?_, ?_, rfl, rfl, rfl, rfl, rfl, rfl, rfl,
    rfl, rfl, rfl, rfl, rfl, rfl⟩
  · simp [handleAnalyzeSpeech, hprev]
  · simp [mergeAnalysis, hL]

/-- Witness for C2: merging a remote payload that claims score 999 with
a local score of 70 keeps 70 and the remote values of all other fields. -/
theorem merge_preserves_local_score_witness :
    ∃ m, (handleAnalyzeSpeech sC2 (SubmitOutcome.success remoteC2)).analysisData = some m ∧
      m.eyeContactScore = some 70 ∧
      m.confidenceScore = remoteC2.confidenceScore ∧
      m.clarityScore = remoteC2.clarityScore ∧
      m.engagementScore = remoteC2.engagementScore ∧
      m.speechComposition = remoteC2.speechComposition ∧
      m.speechLength = remoteC2.speechLength ∧
      m.wordsSpoken = remoteC2.wordsSpoken ∧
      m.speakingRate = remoteC2.speakingRate ∧
      m.fillerWordCount = remoteC2.fillerWordCount ∧
      m.pauses = remoteC2.pauses ∧
      m.overallPercentage = remoteC2.overallPercentage ∧
      m.strengths = remoteC2.strengths ∧
      m.weaknesses = remoteC2.weaknesses ∧
      m.nextSteps = remoteC2.nextSteps :=
  merge_preserves_local_score sC2 remoteC2 prevC2 70 rfl rfl

/-- Claim C3 counterexample: a recording finalizes with local score 70,
then the submission fails; the session is back in the review view with
the artifact still bound — but `analysisData` is NOT null as the claim
states: it still holds the preliminary fragment with the local score. -/
theorem submission_failure_counterexample :
    sC3failed.currentView = View.review ∧
    sC3failed.recordingBlob ≠ none ∧
    sC3failed.analysisData ≠ none ∧
    (sC3failed.analysisData.bind fun d => d.eyeContactScore) = some 70 := by
  refine ⟨rfl, by decide, by decide, ?_⟩
  show some (if 0 < sC3base.totalFrames then
      round ((sC3base.eyeContactFrames : ℚ) / (sC3base.totalFrames : ℚ) * 100)
    else 0) = some 70
  norm_num [sC3base, initialState, round_eq]

/-- Claim C3 (amended): a failed submission returns the session to the
review view, leaves the recording artifact unchanged (still bound), and
leaves `analysisData` exactly as it was — the failure path never merges
or stores a remote result (though `analysisData` is not null: it still
holds the preliminary local-score fragment). -/
theorem submission_failure_transition (s : RecorderState) :
    (handleAnalyzeSpeech s SubmitOutcome.failure).currentView = View.review ∧
    (handleAnalyzeSpeech s SubmitOutcome.failure).recordingBlob = s.recordingBlob ∧
    (handleAnalyzeSpeech s SubmitOutcome.failure).analysisData = s.analysisData :=
  ⟨rfl, rfl, rfl⟩

/-- Claim C4: for every sequence of sampler ticks after detection
starts, both counters stay nonnegative and
`eyeContactFrames ≤ totalFrames` holds after every tick (the tick
sequence is universally quantified, so the bound holds at every
prefix). -/
theorem accumulator_invariant (s : RecorderState) (hm : s.modelLoaded = true)
    (hv : s.videoPresent = true) (os : List TickOutcome) :
    0 ≤ (os.foldl tick (startEyeContactDetection s)).eyeContactFrames ∧
      (os.foldl tick (startEyeContactDetection s)).eyeContactFrames
        ≤ (os.foldl tick (startEyeContactDetection s)).totalFrames := by
  have hstart : (startEyeContactDetection s).eyeContactFrames = 0 ∧
      (startEyeContactDetection s).totalFrames = 0 := by
    simp [startEyeContactDetection, hm, hv]
  exact tickLoop_invariant os _ (by rw [hstart.1]) (by rw [hstart.1, hstart.2])

/-- Witness for C4 on a concrete mixed tick sequence. -/
theorem accumulator_invariant_witness :
    0 ≤ (ticksC4.foldl tick (startEyeContactDetection sC4)).eyeContactFrames ∧
      (ticksC4.foldl tick (startEyeContactDetection sC4)).eyeContactFrames
        ≤ (ticksC4.foldl tick (startEyeContactDetection sC4)).totalFrames :=
  accumulator_invariant sC4 rfl rfl ticksC4

/-- Claim C5 counterexample: a tick whose classification call succeeds
but returns an empty prediction list is skipped without incrementing
either counter, although the collaborator did not fail — refuting both
"totalFrames is incremented for every attempted tick" and the
"only if the collaborator fails" direction of the claim. -/
theorem tick_skip_counterexample :
    (tick sC5 (TickOutcome.result (some []))).totalFrames = sC5.totalFrames ∧
    (tick sC5 (TickOutcome.result (some []))).eyeContactFrames = sC5.eyeContactFrames ∧
    TickOutcome.result (some []) ≠ TickOutcome.failure := by
  refine ⟨rfl, rfl, ?_⟩
  decide

/-- Claim C5 (amended): `totalFrames` is incremented exactly on the
ticks whose classification returns a non-empty prediction list (with
`eyeContactFrames` incremented along iff the first probability is at
least 1/2); a tick is skipped with both counters unchanged iff the
collaborator fails or returns a null or empty prediction list. -/
theorem tick_skip_characterization (s : RecorderState) (o : TickOutcome) :
    (∀ p rest,
        (tick s (TickOutcome.result (some (p :: rest)))).totalFrames
          = s.totalFrames + 1 ∧
        ((tick s (TickOutcome.result (some (p :: rest)))).eyeContactFrames
          = s.eyeContactFrames + 1 ↔ (1 : ℚ)/2 ≤ p.probability)) ∧
    (((tick s o).totalFrames = s.totalFrames ∧
        (tick s o).eyeContactFrames = s.eyeContactFrames)
      ↔ (o = TickOutcome.failure ∨ o = TickOutcome.result none ∨
          o = TickOutcome.result (some []))) := by
  constructor
  · intro p rest
    simp only [tick]
    by_cases hp : (1 : ℚ)/2 ≤ p.probability
    · rw [if_pos hp]
      refine ⟨rfl, ?_⟩
      constructor
      · intro _
        exact hp
      · intro _
        rfl
    · rw [if_neg hp]
      refine ⟨rfl, ?_⟩
      constructor
      · intro h
        simp only [RecorderState.eyeContactFrames] at h
        omega
      · intro h
        exact absurd h hp
  · cases o with
    | failure => simp [tick]
    | result ps =>
      cases ps with
      | none => simp [tick]
      | some l =>
        cases l with
        | nil => simp [tick]
        | cons p rest =>
          simp only [tick]
          constructor
          · rintro ⟨h1, h2⟩
            exfalso
            split at h1 <;> simp only [RecorderState.totalFrames] at h1 <;> omega
          · rintro (h | h | h) <;> simp at h

/-- Witness for C5 (amended) at a concrete positive prediction. -/
theorem tick_skip_characterization_witness :
    (tick sC5 (TickOutcome.result (some [pC5]))).totalFrames = sC5.totalFrames + 1 ∧
    ((tick sC5 (TickOutcome.result (some [pC5]))).eyeContactFrames
      = sC5.eyeContactFrames + 1 ↔ (1 : ℚ)/2 ≤ pC5.probability) :=
  (tick_skip_characterization sC5 (TickOutcome.result (some [pC5]))).1 pC5 []

/-- Claim C6: from the review view, re-recording resets the elapsed
timer to 0, discards the artifact (the reference becomes null), and
returns to the recorder view. -/
theorem rerecord_resets (s : RecorderState) (_h : s.currentView = View.review) :
    (handleReRecord s).elapsed = 0 ∧ (handleReRecord s).recordingBlob = none ∧
    (handleReRecord s).currentView = View.recorder :=
  ⟨rfl, rfl, rfl⟩

/-- Witness for C6 on a concrete review-view state. -/
theorem rerecord_resets_witness :
    (handleReRecord sC6).elapsed = 0 ∧ (handleReRecord sC6).recordingBlob = none ∧
    (handleReRecord sC6).currentView = View.recorder :=
  rerecord_resets sC6 rfl

/-- Claim C7: when the chunk accumulator (fed only by
`ondataavailable`, which drops empty segments) is empty at completion,
the handler is a no-op — no artifact is produced and no state is handed
to presentation; an artifact is assembled only when at least one chunk
was accumulated, and every accumulated chunk is non-empty. -/
theorem no_artifact_from_empty_run (s : RecorderState) (evs : List Chunk)
    (hacc : s.chunks = evs.foldl ondataavailable []) :
    (s.chunks = [] → handleRecordingComplete s = s) ∧
    (s.chunks ≠ [] → ∃ b, (handleRecordingComplete s).recordingBlob = some b ∧
      b.chunks ≠ [] ∧ ∀ c ∈ b.chunks, 0 < c.size) := by
  constructor
  · intro h
    unfold handleRecordingComplete
    rw [if_pos h]
  · intro h
    refine ⟨{ chunks := s.chunks, type := "video/webm" }, ?_, h, ?_⟩
    · unfold handleRecordingComplete
      rw [if_neg h]
    · intro c hc
      rw [hacc] at hc
      exact ondataavailable_foldl_pos evs [] (by simp) c hc

/-- Witness for C7: the run collecting `evsC7` assembles an artifact of
non-empty chunks. -/
theorem no_artifact_from_empty_run_witness :
    sC7.chunks ≠ [] ∧ ∃ b, (handleRecordingComplete sC7).recordingBlob = some b ∧
      b.chunks ≠ [] ∧ ∀ c ∈ b.chunks, 0 < c.size :=
  ⟨by decide, (no_artifact_from_empty_run sC7 evsC7 rfl).2 (by decide)⟩

/-- Claim C8: release is idempotent — running `cleanup` on a state that
`cleanup` already produced changes nothing and performs no external
effect (in particular, release on an already-released or null stream is
a no-op, not an error). -/
theorem release_idempotent (s : RecorderState) :
    cleanup (cleanup s).1 = ((cleanup s).1, []) := by
  obtain ⟨vp, pv, st, mr, tm, ch, ml, ef, tf, pi, ir, el, er, ii, rb, ad, cv⟩ := s
  cases st <;> cases tm <;> cases mr with
  | none => rfl
  | some mr' => cases mr' <;> rfl

/-- Claim C9: when the `getUserMedia` promise resolves after the effect
was cancelled (unmount or transition away), the component state is left
untouched — the stream is never stored nor bound to the preview — and
the emitted effects stop every track of the resolved stream. -/
theorem inflight_acquisition_released (mediaStream : Stream) (s : RecorderState) :
    initializeMediaResolved false mediaStream s
      = (s, mediaStream.tracks.map Effect.stopTrack) ∧
    (initializeMediaResolved false mediaStream s).1.stream = s.stream ∧
    (initializeMediaResolved false mediaStream s).1.preview = s.preview :=
  ⟨rfl, rfl, rfl⟩

/-- Claim C10: with a null `analysisData` prop the `Dashboard`
component renders nothing (returns null); it produces a rendered view,
reading the result's fields, only when `analysisData` is non-null. -/
theorem dashboard_null_guard (recordingBlob : Option Blob) :
    Dashboard recordingBlob none = none ∧
    ∀ d : AnalysisData, (Dashboard recordingBlob (some d)).isSome = true :=
  ⟨rfl, fun _ => rfl⟩

end Presense
